import Mathlib

/-!
Shallow embedding of the Web Push notification pipeline of the
visitaflow-wpatecnicoo repository, together with proofs of the behavioural
properties its specification states.

The embedding covers:
* the `/api/push/send` route (internal-secret gate, VAPID check, body
  validation, subscription fan-out with 410 pruning);
* `sendPushNotificationServer` from `src/lib/push-send-server.ts`;
* the `/api/push/subscribe` route (authenticated `(user_id, endpoint)` upsert);
* the service worker's `fetch` and `push` handlers;
* `requestNotificationPermission` and `disablePushNotifications` from the
  client library;
* the base64url/base64 key codec (`urlBase64ToUint8Array` and the `btoa`
  encoding used by `createPushSubscription`).

JavaScript semantics that matter here (truthiness of `undefined`/`""` in
`a || b`, strict `!==` on a possibly-null header, `Promise.allSettled`
counting) are made explicit.  Machine-level types are modelled as `Nat`
with explicit bounds where overflow or byte ranges matter.
-/

set_option maxRecDepth 4096

/-- JavaScript `a || b` where `a` is an optional string: `undefined`/absent and
the empty string are falsy and fall through to `b`. -/
def jsOrStr (a : Option String) (b : String) : String :=
  match a with
  | none => b
  | some s => if s = "" then b else s

/-- JavaScript truthiness of an optional string value: present and non-empty. -/
def jsTruthy (a : Option String) : Bool :=
  match a with
  | none => false
  | some s => s ≠ ""

/-- One row of the `push_subscriptions` table
(migration `create_push_subscriptions_table.sql`): primary key `id`,
owner `user_id`, gateway `endpoint`, key material `p256dh`/`auth`,
timestamps. -/
structure PushSubRow where
  id : Nat
  user_id : String
  endpoint : String
  p256dh : String
  auth : String
  created_at : Nat
  updated_at : Nat
deriving Repr, DecidableEq

/-- Environment variables read by the push-send route (`src/unnamed/part_003`).
`none` models an unset variable; `some ""` a variable set to the empty
string (falsy in JavaScript). -/
structure SendEnv where
  INTERNAL_SECRET : Option String
  VAPID_SUBJECT : Option String
  VAPID_PUBLIC_KEY : Option String
  VAPID_PRIVATE_KEY : Option String
deriving Repr, DecidableEq

/-- `const internalSecret = process.env.INTERNAL_SECRET ||
process.env.VAPID_SUBJECT || 'change-me-in-production'` from the
push-send route. -/
def internalSecret (env : SendEnv) : String :=
  jsOrStr env.INTERNAL_SECRET (jsOrStr env.VAPID_SUBJECT "change-me-in-production")

/-- Request to `POST /api/push/send`: the `x-internal-secret` header
(`none` when absent) and the JSON body fields. -/
structure SendRequest where
  internalSecretHeader : Option String
  userId : Option String
  title : Option String
  body : Option String
  icon : Option String
  badge : Option String
  tag : Option String
  url : Option String
deriving Repr, DecidableEq

/-- Outcome of one `webpush.sendNotification` gateway call:
success, or a rejection carrying `error.statusCode`. -/
inductive GatewayOutcome where
  | ok
  | err (statusCode : Nat)
deriving Repr, DecidableEq

/-- Response of `POST /api/push/send`, by HTTP status and body shape:
401 on a bad secret, 500 when VAPID keys are unconfigured, 400 on missing
`title`/`body`, 200 with `{message, sent}` when no subscription matched,
and 200 with `{success, sent, failed, total}` after a fan-out. -/
inductive SendResponse where
  | unauthorized
  | vapidUnconfigured
  | missingFields
  | noSubscriptions (sent : Nat)
  | sendResult (success : Bool) (sent : Nat) (failed : Nat) (total : Nat)
deriving Repr, DecidableEq

/-- Observable effects of one `POST /api/push/send` request: the gateway
calls issued, the number of subscription-table reads, and the table contents
afterwards. -/
structure SendEffects where
  gatewayCalls : List PushSubRow
  storeReads : Nat
  finalStore : List PushSubRow
deriving Repr, DecidableEq

/-- The subscription rows the send targets: all rows, or—when a truthy
`userId` was supplied—the rows with `.eq('user_id', userId)`. -/
def matchedSubscriptions (store : List PushSubRow) (userId : Option String) :
    List PushSubRow :=
  match userId with
  | some uid => if uid = "" then store else store.filter (fun s => s.user_id = uid)
  | none => store

/-- Number of matched subscriptions whose gateway call succeeded
(`results.filter(r => r.status === 'fulfilled' && r.value.success).length`). -/
def sentCount (subs : List PushSubRow) (gw : PushSubRow → GatewayOutcome) : Nat :=
  (subs.filter (fun s => gw s = GatewayOutcome.ok)).length

/-- Number of matched subscriptions whose gateway call did not succeed. -/
def failCount (subs : List PushSubRow) (gw : PushSubRow → GatewayOutcome) : Nat :=
  (subs.filter (fun s => gw s ≠ GatewayOutcome.ok)).length

/-- Ids of the matched subscriptions whose gateway call failed with the
permanent 410 status: exactly these are deleted by the per-subscription
`catch` blocks. -/
def staleIds (subs : List PushSubRow) (gw : PushSubRow → GatewayOutcome) :
    List Nat :=
  (subs.filter (fun s => gw s = GatewayOutcome.err 410)).map PushSubRow.id

/-- `supabase.from('push_subscriptions').delete().eq('id', i)`. -/
def deleteById (store : List PushSubRow) (i : Nat) : List PushSubRow :=
  store.filter (fun s => s.id ≠ i)

/-- Apply the per-subscription deletions in the order the concurrent sends
happened to complete. -/
def applyDeletes (store : List PushSubRow) (ids : List Nat) : List PushSubRow :=
  ids.foldl deleteById store

/-- The `POST /api/push/send` handler (`src/unnamed/part_003`): internal-secret
gate, VAPID configuration check, body validation, subscription load, fan-out
with 410 pruning, and count aggregation.  `gw` gives each subscription's
gateway outcome; `applyDeletes` is evaluated here in list order, and
order-independence is proved separately. -/
def pushSendPOST (env : SendEnv) (store : List PushSubRow) (req : SendRequest)
    (gw : PushSubRow → GatewayOutcome) : SendResponse × SendEffects :=
  if req.internalSecretHeader ≠ some (internalSecret env) then
    (SendResponse.unauthorized, ⟨[], 0, store⟩)
  else if ¬ (jsTruthy env.VAPID_PUBLIC_KEY ∧ jsTruthy env.VAPID_PRIVATE_KEY) then
    (SendResponse.vapidUnconfigured, ⟨[], 0, store⟩)
  else if ¬ (jsTruthy req.title ∧ jsTruthy req.body) then
    (SendResponse.missingFields, ⟨[], 0, store⟩)
  else if (matchedSubscriptions store req.userId).isEmpty then
    (SendResponse.noSubscriptions 0, ⟨[], 1, store⟩)
  else
    (SendResponse.sendResult true
      (sentCount (matchedSubscriptions store req.userId) gw)
      ((matchedSubscriptions store req.userId).length
        - sentCount (matchedSubscriptions store req.userId) gw)
      (matchedSubscriptions store req.userId).length,
     ⟨matchedSubscriptions store req.userId, 1,
      applyDeletes store (staleIds (matchedSubscriptions store req.userId) gw)⟩)

/-- Payload accepted by `sendPushNotificationServer`
(`PushNotificationPayload` in `src/lib/push-send-server.ts`). -/
structure ServerPayload where
  userId : Option String
  title : Option String
  body : Option String
  icon : Option String
  badge : Option String
  tag : Option String
  url : Option String
deriving Repr, DecidableEq

/-- Result of `sendPushNotificationServer`: note the source's return type
`{ success, sent, failed, error? }` has no `total` field. -/
structure ServerSendResult where
  success : Bool
  sent : Nat
  failed : Nat
  error : Option String
deriving Repr, DecidableEq

/-- `sendPushNotificationServer` from `src/lib/push-send-server.ts`: same
pipeline as the route but without the secret gate, returning a structured
result instead of an HTTP response.  Also returns the subscription table
after the per-subscription 410 pruning. -/
def sendPushNotificationServer (env : SendEnv) (store : List PushSubRow)
    (p : ServerPayload) (gw : PushSubRow → GatewayOutcome) :
    ServerSendResult × List PushSubRow :=
  if ¬ (jsTruthy env.VAPID_PUBLIC_KEY ∧ jsTruthy env.VAPID_PRIVATE_KEY) then
    (⟨false, 0, 0, some "VAPID keys nao configuradas no servidor"⟩, store)
  else if ¬ (jsTruthy p.title ∧ jsTruthy p.body) then
    (⟨false, 0, 0, some "Campos obrigatorios: title, body"⟩, store)
  else if (matchedSubscriptions store p.userId).isEmpty then
    (⟨true, 0, 0, none⟩, store)
  else
    (⟨true, sentCount (matchedSubscriptions store p.userId) gw,
      (matchedSubscriptions store p.userId).length
        - sentCount (matchedSubscriptions store p.userId) gw, none⟩,
     applyDeletes store (staleIds (matchedSubscriptions store p.userId) gw))

/-- Request to `POST /api/push/subscribe`: `Authorization` header and body
fields (`none` for an absent field). -/
structure SubscribeRequest where
  authHeader : Option String
  endpoint : Option String
  p256dh : Option String
  auth : Option String
deriving Repr, DecidableEq

/-- Response of `POST /api/push/subscribe`: 401 without a token, 401 when the
identity collaborator rejects it, 400 on missing fields, 200 with the
resulting row. -/
inductive SubscribeResponse where
  | noToken
  | unauthenticated
  | missingFields
  | ok (subscription : PushSubRow)
deriving Repr, DecidableEq

/-- Replace the first occurrence of `pat` in a character list by `rep`
(JavaScript `String.prototype.replace` with a string pattern). -/
def replaceFirstChars (pat rep : List Char) : List Char → List Char
  | [] => []
  | c :: rest =>
    if pat.isPrefixOf (c :: rest) then rep ++ (c :: rest).drop pat.length
    else c :: replaceFirstChars pat rep rest

/-- `authHeader?.replace('Bearer ', '')` from the subscribe route. -/
def stripBearer (s : String) : String :=
  String.mk (replaceFirstChars "Bearer ".toList [] s.toList)

/-- Supabase `.single()`: the row when the query returned exactly one,
otherwise an error (whose `data` is null, which the route ignores). -/
def singleRow (l : List PushSubRow) : Option PushSubRow :=
  match l with
  | [r] => some r
  | _ => none

/-- The `(user_id, endpoint)` lookup predicate of the subscribe route. -/
def subsMatch (uid endpt : String) (s : PushSubRow) : Bool :=
  s.user_id = uid && s.endpoint = endpt

/-- The `POST /api/push/subscribe` handler
(`src/app/api/push/subscribe/route.ts`): token check, authentication via the
identity collaborator (`getServerUser`, passed here as its verdict), body
validation, then read-then-write upsert keyed on `(user_id, endpoint)`.
`nextId` is the fresh identifier generated on insert, `now` the current
time for `updated_at` (and the insert's `created_at` default). -/
def subscribePOST (getServerUser : Option String) (store : List PushSubRow)
    (nextId now : Nat) (req : SubscribeRequest) :
    SubscribeResponse × List PushSubRow :=
  if ¬ jsTruthy (req.authHeader.map stripBearer) then
    (SubscribeResponse.noToken, store)
  else
    match getServerUser with
    | none => (SubscribeResponse.unauthenticated, store)
    | some uid =>
      if ¬ (jsTruthy req.endpoint ∧ jsTruthy req.p256dh ∧ jsTruthy req.auth) then
        (SubscribeResponse.missingFields, store)
      else
        match singleRow (store.filter (subsMatch uid (req.endpoint.getD ""))) with
        | some existing =>
          (SubscribeResponse.ok
            { existing with
              user_id := uid, endpoint := req.endpoint.getD "",
              p256dh := req.p256dh.getD "", auth := req.auth.getD "",
              updated_at := now },
           store.map (fun r => if r.id = existing.id then
             { existing with
               user_id := uid, endpoint := req.endpoint.getD "",
               p256dh := req.p256dh.getD "", auth := req.auth.getD "",
               updated_at := now } else r))
        | none =>
          (SubscribeResponse.ok
            ⟨nextId, uid, req.endpoint.getD "", req.p256dh.getD "",
             req.auth.getD "", now, now⟩,
           store ++ [⟨nextId, uid, req.endpoint.getD "", req.p256dh.getD "",
             req.auth.getD "", now, now⟩])

/-- The service worker's fetch handler (`src/unnamed/part_000`): only GET
requests are intercepted (`none` means the request passes through
unhandled); network-first with cache fallback, propagating the network
error when no cached response matches; the cache is never written. -/
def handleFetch {ε ρ : Type} (cache : List (String × ρ)) (method url : String)
    (net : Except ε ρ) : Option (Except ε ρ) × List (String × ρ) :=
  if method ≠ "GET" then (none, cache)
  else
    match net with
    | Except.ok r => (some (Except.ok r), cache)
    | Except.error e =>
      match cache.lookup url with
      | some cached => (some (Except.ok cached), cache)
      | none => (some (Except.error e), cache)

/-- Fields of a push message payload once parsed as JSON by the service
worker (`payload.title`, …); `none` models an absent field, `some ""` an
empty (falsy) one. -/
structure SwPayload where
  title : Option String
  body : Option String
  icon : Option String
  badge : Option String
  tag : Option String
  data : Option (List (String × String))
  requireInteraction : Option Bool
  vibrate : Option (List Nat)
deriving Repr, DecidableEq

/-- What the push event carries: no data, or a body with its raw text and the
outcome of `event.data.json()` (`none` when JSON parsing throws). -/
inductive PushEventData where
  | noData
  | withData (raw : String) (parsed : Option SwPayload)
deriving Repr, DecidableEq

/-- Arguments of the `showNotification` call made by the push handler.
`requireInteraction`, `vibrate` and `timestamp` stay absent (`none`) when the
handler's default object is used unchanged. -/
structure ShownNotification where
  title : String
  body : String
  icon : String
  badge : String
  tag : String
  data : List (String × String)
  requireInteraction : Option Bool
  vibrate : Option (List Nat)
  timestamp : Option Nat
deriving Repr, DecidableEq

/-- The service worker's push handler (`src/unnamed/part_000`): fixed default
notification; JSON payload fields merged over the defaults by `||`; on parse
failure the raw body text (or the default body when it is empty) with
default title/icon/badge/tag. -/
def handlePush (now : Nat) : PushEventData → ShownNotification
  | PushEventData.noData =>
    ⟨"VisitaFlow Técnico", "Você tem uma nova notificação", "/icon.svg",
     "/icon.svg", "visitaflow-notification", [], none, none, none⟩
  | PushEventData.withData raw none =>
    ⟨"VisitaFlow Técnico", jsOrStr (some raw) "Você tem uma nova notificação",
     "/icon.svg", "/icon.svg", "visitaflow-notification", [], none, none, none⟩
  | PushEventData.withData _ (some p) =>
    ⟨jsOrStr p.title "VisitaFlow Técnico",
     jsOrStr p.body "Você tem uma nova notificação",
     jsOrStr p.icon "/icon.svg",
     jsOrStr p.badge "/icon.svg",
     jsOrStr p.tag "visitaflow-notification",
     p.data.getD [],
     some (p.requireInteraction.getD false),
     some (p.vibrate.getD [200, 100, 200]),
     some now⟩

/-- Browser notification-permission state. -/
inductive NotifPermission where
  | dflt
  | granted
  | denied
deriving Repr, DecidableEq

/-- Errors thrown by `requestNotificationPermission`. -/
inductive PermissionError where
  | unsupported
  | permissionDenied
deriving Repr, DecidableEq

instance exceptDecEq {ε α : Type} [DecidableEq ε] [DecidableEq α] :
    DecidableEq (Except ε α) := fun x y =>
  match x, y with
  | Except.ok a, Except.ok b =>
    if h : a = b then isTrue (by rw [h])
    else isFalse (by intro hc; cases hc; exact h rfl)
  | Except.error a, Except.error b =>
    if h : a = b then isTrue (by rw [h])
    else isFalse (by intro hc; cases hc; exact h rfl)
  | Except.ok _, Except.error _ => isFalse (by intro hc; cases hc)
  | Except.error _, Except.ok _ => isFalse (by intro hc; cases hc)

/-- Result of `requestNotificationPermission` together with how many times the
platform prompt (`Notification.requestPermission()`) was invoked. -/
structure PermissionOutcome where
  result : Except PermissionError NotifPermission
  promptCalls : Nat
deriving Repr, DecidableEq

/-- `requestNotificationPermission` from `src/lib/push-send-server.ts`:
throws when unsupported, short-circuits on `granted`, throws on `denied`,
otherwise prompts once and returns the prompt's outcome. -/
def requestNotificationPermission (supported : Bool) (current : NotifPermission)
    (promptResult : NotifPermission) : PermissionOutcome :=
  if ¬ supported then ⟨Except.error PermissionError.unsupported, 0⟩
  else if current = NotifPermission.granted then
    ⟨Except.ok NotifPermission.granted, 0⟩
  else if current = NotifPermission.denied then
    ⟨Except.error PermissionError.permissionDenied, 0⟩
  else ⟨Except.ok promptResult, 1⟩

/-- Client-side platform push state: the push APIs are unavailable, or they
are available with an optional existing platform subscription (identified by
an opaque handle).  An existing subscription entails support, since reading
it requires the APIs. -/
inductive PlatformPushState where
  | unsupported
  | supported (subscription : Option Nat)
deriving Repr, DecidableEq

/-- Structured result of `disablePushNotifications`. -/
structure DisableResult where
  success : Bool
  error : Option String
deriving Repr, DecidableEq

/-- Effects of `disablePushNotifications`: platform state afterwards, the
server-side subscription table afterwards, and the number of server deletion
requests issued (the `/api/push/unsubscribe` call is commented out in the
source). -/
structure DisableEffects where
  platformAfter : PlatformPushState
  serverStore : List PushSubRow
  serverDeleteRequests : Nat
deriving Repr, DecidableEq

/-- `disablePushNotifications` from `src/lib/push-send-server.ts`: fails when
unsupported; unsubscribes the existing platform subscription when there is
one; never touches the server-side store. -/
def disablePushNotifications (st : PlatformPushState)
    (serverStore : List PushSubRow) : DisableResult × DisableEffects :=
  match st with
  | PlatformPushState.unsupported =>
    (⟨false, some "Push notifications nao suportadas"⟩, ⟨st, serverStore, 0⟩)
  | PlatformPushState.supported none =>
    (⟨true, none⟩, ⟨PlatformPushState.supported none, serverStore, 0⟩)
  | PlatformPushState.supported (some _) =>
    (⟨true, none⟩, ⟨PlatformPushState.supported none, serverStore, 0⟩)

/-- The standard base64 alphabet, in value order, as used by
`window.atob`/`window.btoa`. -/
def base64Alphabet : List Char :=
  "ABCDEFGHIJKLMNOPQRSTUVWXYZabcdefghijklmnopqrstuvwxyz0123456789+/".toList

/-- The character encoding the sextet `n` in standard base64. -/
def b64Char (n : Nat) : Char :=
  base64Alphabet.getD n 'A'

/-- The sextet value of a standard-base64 character, `none` when the character
is outside the alphabet. -/
def b64Val (c : Char) : Option Nat :=
  base64Alphabet.findIdx? (fun a => a = c)

/-- Split a byte sequence into base64 sextets, without padding: full 3-byte
groups yield 4 sextets; a trailing 1- or 2-byte group yields 2 or 3 sextets
whose unused low bits are zero.  This is the bit layout of `btoa`. -/
def bytesToSextets : List Nat → List Nat
  | x :: y :: z :: rest =>
    x / 4 :: ((x % 4) * 16 + y / 16) :: ((y % 16) * 4 + z / 64) :: z % 64 ::
      bytesToSextets rest
  | [x, y] => [x / 4, (x % 4) * 16 + y / 16, (y % 16) * 4]
  | [x] => [x / 4, (x % 4) * 16]
  | [] => []

/-- The `'='` padding `btoa` appends for a byte sequence of length `n`. -/
def padChars (n : Nat) : List Char :=
  match n % 3 with
  | 1 => ['=', '=']
  | 2 => ['=']
  | _ => []

/-- `window.btoa` applied to a binary string of byte values (< 256), as in
`btoa(String.fromCharCode(...new Uint8Array(key)))` from
`createPushSubscription`: standard base64 with `'='` padding. -/
def btoaBytes (bytes : List Nat) : String :=
  String.mk ((bytesToSextets bytes).map b64Char ++ padChars bytes.length)

/-- Recombine base64 sextets into bytes; a trailing group of 2 or 3 sextets
yields 1 or 2 bytes, with the leftover low bits discarded
(forgiving-base64 decode, as `window.atob` implements it). -/
def sextetsToBytes : List Nat → List Nat
  | a :: b :: c :: d :: rest =>
    (a * 4 + b / 16) :: ((b % 16) * 16 + c / 4) :: ((c % 4) * 64 + d) ::
      sextetsToBytes rest
  | [a, b] => [a * 4 + b / 16]
  | [a, b, c] => [a * 4 + b / 16, (b % 16) * 16 + c / 4]
  | _ => []

/-- Drop one trailing `'='` if present. -/
def dropTrailingEq1 (s : List Char) : List Char :=
  match s.reverse with
  | c :: rest => if c = '=' then rest.reverse else s
  | [] => s

/-- Strip up to two trailing `'='` characters (the padding-removal step of
forgiving-base64). -/
def stripPad (s : List Char) : List Char :=
  dropTrailingEq1 (dropTrailingEq1 s)

/-- `window.atob` (forgiving-base64 decode) on a whitespace-free input, to a
byte sequence: when the length is a multiple of 4, up to two trailing `'='`
are stripped; a remaining length of 1 mod 4 or any character outside the
alphabet throws `InvalidCharacterError`, modelled as `none`. -/
def atob (s : String) : Option (List Nat) :=
  let t := if s.length % 4 = 0 then stripPad s.toList else s.toList
  if t.length % 4 = 1 then none
  else if t.all (fun c => (b64Val c).isSome) then
    some (sextetsToBytes (t.map (fun c => (b64Val c).getD 0)))
  else none

/-- The URL-safe-to-standard substitution of `urlBase64ToUint8Array`, per
character: dash to plus, underscore to slash. -/
def stdChar (c : Char) : Char :=
  if c = '-' then '+' else if c = '_' then '/' else c

/-- `urlBase64ToUint8Array` from `src/lib/push-send-server.ts`: pad the input
with `'='` to a multiple of 4 characters, substitute `'-'`→`'+'` and
`'_'`→`'/'`, then `atob` and read the bytes off character codes. -/
def urlBase64ToUint8Array (base64String : String) : Option (List Nat) :=
  let padding := List.replicate ((4 - base64String.length % 4) % 4) '='
  let base64 := (base64String.toList ++ padding).map stdChar
  atob (String.mk base64)

/-- The base64url counterpart of a standard base64 character
(`'+'`→`'-'`, `'/'`→`'_'`). -/
def urlChar (c : Char) : Char :=
  if c = '+' then '-' else if c = '/' then '_' else c

/-- Unpadded base64url encoding of a byte sequence: the canonical form of
"valid base64url-encoded key string" over which the codec round-trip claim
quantifies (this is how VAPID public keys are produced by their generator;
it characterises the claim's inputs and is not repo code). -/
def base64urlEncode (bytes : List Nat) : String :=
  String.mk ((bytesToSextets bytes).map (fun n => urlChar (b64Char n)))

/-! ## Helper lemmas -/

theorem length_filter_bool_compl (p : PushSubRow → Bool) (l : List PushSubRow) :
    (l.filter p).length + (l.filter (fun a => ! p a)).length = l.length := by
  induction l with
  | nil => rfl
  | cons a t ih =>
    cases hp : p a <;> simp [List.filter_cons, hp] <;> omega

theorem sentCount_add_failCount (subs : List PushSubRow)
    (gw : PushSubRow → GatewayOutcome) :
    sentCount subs gw + failCount subs gw = subs.length := by
  have h2 : failCount subs gw
      = (subs.filter (fun s => ! decide (gw s = GatewayOutcome.ok))).length := by
    unfold failCount
    congr 1
    apply List.filter_congr
    intro a _
    simp
  rw [sentCount, h2]
  exact length_filter_bool_compl (fun s => decide (gw s = GatewayOutcome.ok)) subs

theorem applyDeletes_eq_filter (store : List PushSubRow) (ids : List Nat) :
    applyDeletes store ids = store.filter (fun s => s.id ∉ ids) := by
  induction ids generalizing store with
  | nil => simp [applyDeletes]
  | cons i t ih =>
    have h1 : applyDeletes store (i :: t) = applyDeletes (deleteById store i) t := rfl
    rw [h1, ih]
    unfold deleteById
    rw [List.filter_filter]
    apply List.filter_congr
    intro s _
    rcases eq_or_ne s.id i with h | h <;> by_cases h2 : s.id ∈ t <;>
      simp [h, h2, List.mem_cons]

theorem staleIds_spec (subs : List PushSubRow) (gw : PushSubRow → GatewayOutcome)
    (i : Nat) :
    i ∈ staleIds subs gw ↔ ∃ t ∈ subs, gw t = GatewayOutcome.err 410 ∧ t.id = i := by
  simp only [staleIds, List.mem_map, List.mem_filter, decide_eq_true_eq]
  constructor
  · rintro ⟨t, ⟨ht, hgw⟩, hid⟩
    exact ⟨t, ht, hgw, hid⟩
  · rintro ⟨t, ht, hgw, hid⟩
    exact ⟨t, ⟨ht, hgw⟩, hid⟩

theorem matchedSubscriptions_sublist (store : List PushSubRow)
    (userId : Option String) :
    (matchedSubscriptions store userId).Sublist store := by
  cases userId with
  | none => exact List.Sublist.refl store
  | some uid =>
    by_cases h : uid = "" <;> simp only [matchedSubscriptions, h, if_true, if_false,
      ite_true, ite_false]
    · exact List.Sublist.refl store
    · exact List.filter_sublist store

theorem pushSendPOST_eq_fanout (env : SendEnv) (store : List PushSubRow)
    (req : SendRequest) (gw : PushSubRow → GatewayOutcome)
    (hsec : req.internalSecretHeader = some (internalSecret env))
    (hpk : jsTruthy env.VAPID_PUBLIC_KEY = true)
    (hsk : jsTruthy env.VAPID_PRIVATE_KEY = true)
    (ht : jsTruthy req.title = true) (hb : jsTruthy req.body = true)
    (hne : matchedSubscriptions store req.userId ≠ []) :
    pushSendPOST env store req gw
      = (SendResponse.sendResult true
          (sentCount (matchedSubscriptions store req.userId) gw)
          ((matchedSubscriptions store req.userId).length
            - sentCount (matchedSubscriptions store req.userId) gw)
          (matchedSubscriptions store req.userId).length,
         ⟨matchedSubscriptions store req.userId, 1,
          applyDeletes store (staleIds (matchedSubscriptions store req.userId) gw)⟩) := by
  have hempty : (matchedSubscriptions store req.userId).isEmpty = false := by
    cases hmm : matchedSubscriptions store req.userId
    · exact absurd hmm hne
    · rfl
  simp [pushSendPOST, hsec, hpk, hsk, ht, hb, hempty]

theorem isPrefixOf_append_self (l r : List Char) : l.isPrefixOf (l ++ r) = true := by
  induction l with
  | nil => simp
  | cons c cs ih => simp [List.isPrefixOf, ih]

theorem replaceFirstChars_append_self (rep r : List Char) (pat : List Char)
    (hpat : pat ≠ []) :
    replaceFirstChars pat rep (pat ++ r) = rep ++ r := by
  cases pat with
  | nil => exact absurd rfl hpat
  | cons c cs =>
    rw [List.cons_append, replaceFirstChars, ← List.cons_append,
      if_pos (isPrefixOf_append_self (c :: cs) r)]
    rw [List.drop_left]

theorem stripBearer_bearer (tok : String) : stripBearer ("Bearer " ++ tok) = tok := by
  unfold stripBearer
  have h1 : ("Bearer " ++ tok).toList = "Bearer ".toList ++ tok.toList := by
    simp [String.toList, String.data_append]
  rw [h1, replaceFirstChars_append_self _ _ _ (by decide)]
  simp [String.toList]

/-! ## Claim theorems -/

/-- C3: a `POST /api/push/send` request whose `x-internal-secret` header is
absent or differs from the configured secret is answered 401, with zero
gateway calls, zero subscription-store reads, and the store left unchanged,
whatever the body says. -/
theorem send_gate_unauthorized_no_effects (env : SendEnv)
    (store : List PushSubRow) (req : SendRequest)
    (gw : PushSubRow → GatewayOutcome)
    (h : req.internalSecretHeader = none ∨
      req.internalSecretHeader ≠ some (internalSecret env)) :
    (pushSendPOST env store req gw).1 = SendResponse.unauthorized ∧
    (pushSendPOST env store req gw).2.gatewayCalls = [] ∧
    (pushSendPOST env store req gw).2.storeReads = 0 ∧
    (pushSendPOST env store req gw).2.finalStore = store := by
  have h' : req.internalSecretHeader ≠ some (internalSecret env) := by
    rcases h with h | h
    · rw [h]; exact fun hc => Option.noConfusion hc
    · exact h
  simp [pushSendPOST, h']

/-- C3 witness: a concrete request with a wrong secret is rejected with no
effects. -/
theorem send_gate_unauthorized_no_effects_witness :
    (pushSendPOST ⟨some "secret", none, some "pk", some "sk"⟩
        [⟨1, "u", "https://ep", "p", "a", 0, 0⟩]
        ⟨some "wrong", none, some "T", some "B", none, none, none, none⟩
        (fun _ => GatewayOutcome.ok)).1 = SendResponse.unauthorized ∧
    (pushSendPOST ⟨some "secret", none, some "pk", some "sk"⟩
        [⟨1, "u", "https://ep", "p", "a", 0, 0⟩]
        ⟨some "wrong", none, some "T", some "B", none, none, none, none⟩
        (fun _ => GatewayOutcome.ok)).2.gatewayCalls = [] ∧
    (pushSendPOST ⟨some "secret", none, some "pk", some "sk"⟩
        [⟨1, "u", "https://ep", "p", "a", 0, 0⟩]
        ⟨some "wrong", none, some "T", some "B", none, none, none, none⟩
        (fun _ => GatewayOutcome.ok)).2.storeReads = 0 ∧
    (pushSendPOST ⟨some "secret", none, some "pk", some "sk"⟩
        [⟨1, "u", "https://ep", "p", "a", 0, 0⟩]
        ⟨some "wrong", none, some "T", some "B", none, none, none, none⟩
        (fun _ => GatewayOutcome.ok)).2.finalStore
      = [⟨1, "u", "https://ep", "p", "a", 0, 0⟩] :=
  send_gate_unauthorized_no_effects _ _ _ _ (Or.inr (by decide))

/-- C4 counterexample: with VAPID configured, a valid body and zero matching
subscriptions, the route's 200 response body is `{message, sent: 0}` — the
`noSubscriptions` shape — not `{success: true, sent: 0, failed: 0, total: 0}`
as the claim states. -/
theorem empty_target_send_shape_counterexample :
    (pushSendPOST ⟨some "s", none, some "pk", some "sk"⟩ []
        ⟨some "s", none, some "T", some "B", none, none, none, none⟩
        (fun _ => GatewayOutcome.ok)).1 = SendResponse.noSubscriptions 0 ∧
    SendResponse.noSubscriptions 0 ≠ SendResponse.sendResult true 0 0 0 ∧
    (sendPushNotificationServer ⟨some "s", none, some "pk", some "sk"⟩ []
        ⟨none, some "T", some "B", none, none, none, none⟩
        (fun _ => GatewayOutcome.ok)).1
      = ({ success := true, sent := 0, failed := 0, error := none } :
          ServerSendResult) := by
  refine ⟨by decide, by decide, by decide⟩

/-- C4 (amended): with VAPID configured and a valid body, a send that matches
zero subscription records is a success, not an error: the route answers 200
with body `{message, sent: 0}` (no `success`/`failed`/`total` fields) and the
library returns `{success: true, sent: 0, failed: 0}` (its result type has no
`total` field); neither touches the store. -/
theorem empty_target_send_success (env : SendEnv) (store : List PushSubRow)
    (req : SendRequest) (p : ServerPayload) (gw : PushSubRow → GatewayOutcome)
    (hsec : req.internalSecretHeader = some (internalSecret env))
    (hpk : jsTruthy env.VAPID_PUBLIC_KEY = true)
    (hsk : jsTruthy env.VAPID_PRIVATE_KEY = true)
    (ht : jsTruthy req.title = true) (hb : jsTruthy req.body = true)
    (hm : matchedSubscriptions store req.userId = [])
    (ht2 : jsTruthy p.title = true) (hb2 : jsTruthy p.body = true)
    (hm2 : matchedSubscriptions store p.userId = []) :
    (pushSendPOST env store req gw).1 = SendResponse.noSubscriptions 0 ∧
    (pushSendPOST env store req gw).2.finalStore = store ∧
    (sendPushNotificationServer env store p gw).1
      = ({ success := true, sent := 0, failed := 0, error := none } :
          ServerSendResult) ∧
    (sendPushNotificationServer env store p gw).2 = store := by
  refine ⟨?_, ?_, ?_, ?_⟩ <;>
    simp [pushSendPOST, sendPushNotificationServer, hsec, hpk, hsk, ht, hb, hm,
      ht2, hb2, hm2]

/-- C4 witness: a store whose only row belongs to another user yields the
empty-target success for a targeted send. -/
theorem empty_target_send_success_witness :
    (pushSendPOST ⟨some "s", none, some "pk", some "sk"⟩
        [⟨1, "other", "e", "p", "a", 0, 0⟩]
        ⟨some "s", some "u", some "T", some "B", none, none, none, none⟩
        (fun _ => GatewayOutcome.ok)).1 = SendResponse.noSubscriptions 0 ∧
    (pushSendPOST ⟨some "s", none, some "pk", some "sk"⟩
        [⟨1, "other", "e", "p", "a", 0, 0⟩]
        ⟨some "s", some "u", some "T", some "B", none, none, none, none⟩
        (fun _ => GatewayOutcome.ok)).2.finalStore
      = [⟨1, "other", "e", "p", "a", 0, 0⟩] ∧
    (sendPushNotificationServer ⟨some "s", none, some "pk", some "sk"⟩
        [⟨1, "other", "e", "p", "a", 0, 0⟩]
        ⟨some "u", some "T", some "B", none, none, none, none⟩
        (fun _ => GatewayOutcome.ok)).1
      = ({ success := true, sent := 0, failed := 0, error := none } :
          ServerSendResult) ∧
    (sendPushNotificationServer ⟨some "s", none, some "pk", some "sk"⟩
        [⟨1, "other", "e", "p", "a", 0, 0⟩]
        ⟨some "u", some "T", some "B", none, none, none, none⟩
        (fun _ => GatewayOutcome.ok)).2
      = [⟨1, "other", "e", "p", "a", 0, 0⟩] :=
  empty_target_send_success _ _ _ _ _ (by decide) (by decide) (by decide)
    (by decide) (by decide) (by decide) (by decide) (by decide) (by decide)

/-- C10 counterexample: with `INTERNAL_SECRET` set to the empty string (a set
but falsy environment value), the compared secret is the `VAPID_SUBJECT`
fallback, not the `INTERNAL_SECRET` value — `||` falls through on `""`. -/
theorem internal_secret_empty_string_counterexample :
    (⟨some "", some "subj", none, none⟩ : SendEnv).INTERNAL_SECRET = some "" ∧
    internalSecret ⟨some "", some "subj", none, none⟩ = "subj" ∧
    ("subj" : String) ≠ "" := by
  refine ⟨rfl, by decide, by decide⟩

/-- C10 (amended): the secret compared against `x-internal-secret` is the
`INTERNAL_SECRET` value when set to a non-empty string, otherwise the
`VAPID_SUBJECT` value when set to a non-empty string, otherwise the constant
`"change-me-in-production"`; and with `INTERNAL_SECRET` unset, a request
supplying the effective fallback value in the header passes the gate. -/
theorem internal_secret_fallback_chain (env : SendEnv) (store : List PushSubRow)
    (req : SendRequest) (gw : PushSubRow → GatewayOutcome) :
    (∀ s, env.INTERNAL_SECRET = some s → s ≠ "" → internalSecret env = s) ∧
    ((env.INTERNAL_SECRET = none ∨ env.INTERNAL_SECRET = some "") →
      ∀ s, env.VAPID_SUBJECT = some s → s ≠ "" → internalSecret env = s) ∧
    ((env.INTERNAL_SECRET = none ∨ env.INTERNAL_SECRET = some "") →
      (env.VAPID_SUBJECT = none ∨ env.VAPID_SUBJECT = some "") →
      internalSecret env = "change-me-in-production") ∧
    (env.INTERNAL_SECRET = none →
      req.internalSecretHeader
        = some (jsOrStr env.VAPID_SUBJECT "change-me-in-production") →
      (pushSendPOST env store req gw).1 ≠ SendResponse.unauthorized) := by
  refine ⟨?_, ?_, ?_, ?_⟩
  · intro s hs hne
    simp [internalSecret, hs, jsOrStr, hne]
  · rintro (h | h) s hs hne <;> simp [internalSecret, h, hs, jsOrStr, hne]
  · rintro (h | h) (h2 | h2) <;> simp [internalSecret, h, h2, jsOrStr]
  · intro hnone hhdr
    have hsec : req.internalSecretHeader = some (internalSecret env) := by
      rw [hhdr, internalSecret, hnone]; rfl
    unfold pushSendPOST
    rw [if_neg (by rw [hsec]; exact fun hc => hc rfl)]
    split_ifs <;> exact fun hc => SendResponse.noConfusion hc

/-- C10 witness: with `INTERNAL_SECRET` unset, the effective secret is the
`VAPID_SUBJECT` fallback, and supplying it in the header passes the gate. -/
theorem internal_secret_fallback_chain_witness :
    internalSecret ⟨none, some "subj", none, none⟩ = "subj" ∧
    (pushSendPOST ⟨none, some "subj", none, none⟩ []
        ⟨some "subj", none, some "T", some "B", none, none, none, none⟩
        (fun _ => GatewayOutcome.ok)).1 ≠ SendResponse.unauthorized :=
  ⟨(internal_secret_fallback_chain ⟨none, some "subj", none, none⟩ []
      ⟨some "subj", none, some "T", some "B", none, none, none, none⟩
      (fun _ => GatewayOutcome.ok)).2.1 (Or.inl rfl) "subj" rfl (by decide),
   (internal_secret_fallback_chain ⟨none, some "subj", none, none⟩ []
      ⟨some "subj", none, some "T", some "B", none, none, none, none⟩
      (fun _ => GatewayOutcome.ok)).2.2.2 rfl (by decide)⟩

/-- C6: the service worker's fetch handler returns the network response
unmodified on success, falls back to a matching cached response on network
failure, propagates the original network error when nothing is cached,
never intercepts non-GET requests, and never writes to the cache. -/
theorem fetch_network_first_fallback (ε ρ : Type) (cache : List (String × ρ))
    (method url : String) (net : Except ε ρ) :
    (∀ r, net = Except.ok r →
      handleFetch cache "GET" url net = (some (Except.ok r), cache)) ∧
    (∀ e c, net = Except.error e → cache.lookup url = some c →
      handleFetch cache "GET" url net = (some (Except.ok c), cache)) ∧
    (∀ e, net = Except.error e → cache.lookup url = none →
      handleFetch cache "GET" url net = (some (Except.error e), cache)) ∧
    (method ≠ "GET" → handleFetch cache method url net = (none, cache)) ∧
    (handleFetch cache method url net).2 = cache := by
  refine ⟨?_, ?_, ?_, ?_, ?_⟩
  · intro r hr
    simp [handleFetch, hr]
  · intro e c he hc
    simp [handleFetch, he, hc]
  · intro e he hc
    simp [handleFetch, he, hc]
  · intro hm
    simp [handleFetch, hm]
  · by_cases hm : method = "GET"
    · cases net with
      | ok r => simp [handleFetch, hm]
      | error e =>
        cases hc : cache.lookup url <;> simp [handleFetch, hm, hc]
    · simp [handleFetch, hm]

/-- C6 witness: a cached response is served on a simulated network failure. -/
theorem fetch_network_first_fallback_witness :
    handleFetch ([("https://app/u", 7)] : List (String × Nat)) "GET"
        "https://app/u" (Except.error (3 : Nat))
      = (some (Except.ok 7), [("https://app/u", 7)]) :=
  (fetch_network_first_fallback Nat Nat [("https://app/u", 7)] "GET"
      "https://app/u" (Except.error 3)).2.1 3 7 rfl (by decide)

/-- C7: a push body that fails to parse as JSON is shown with the raw body
text (default body when that text is empty) under the default title, icon,
badge and tag; a body that parses as JSON has its fields merged over those
defaults by JavaScript `||`. -/
theorem push_handler_json_fallback (now : Nat) (raw : String) (p : SwPayload) :
    (handlePush now (PushEventData.withData raw none)).title
      = "VisitaFlow Técnico" ∧
    (handlePush now (PushEventData.withData raw none)).body
      = (if raw = "" then "Você tem uma nova notificação" else raw) ∧
    (handlePush now (PushEventData.withData raw none)).icon = "/icon.svg" ∧
    (handlePush now (PushEventData.withData raw none)).badge = "/icon.svg" ∧
    (handlePush now (PushEventData.withData raw none)).tag
      = "visitaflow-notification" ∧
    (handlePush now (PushEventData.withData raw (some p))).title
      = jsOrStr p.title "VisitaFlow Técnico" ∧
    (handlePush now (PushEventData.withData raw (some p))).body
      = jsOrStr p.body "Você tem uma nova notificação" ∧
    (handlePush now (PushEventData.withData raw (some p))).icon
      = jsOrStr p.icon "/icon.svg" ∧
    (handlePush now (PushEventData.withData raw (some p))).badge
      = jsOrStr p.badge "/icon.svg" ∧
    (handlePush now (PushEventData.withData raw (some p))).tag
      = jsOrStr p.tag "visitaflow-notification" ∧
    (handlePush now (PushEventData.withData raw (some p))).data = p.data.getD [] ∧
    (handlePush now (PushEventData.withData raw (some p))).requireInteraction
      = some (p.requireInteraction.getD false) ∧
    (handlePush now (PushEventData.withData raw (some p))).vibrate
      = some (p.vibrate.getD [200, 100, 200]) :=
  ⟨rfl, rfl, rfl, rfl, rfl, rfl, rfl, rfl, rfl, rfl, rfl, rfl, rfl⟩

/-- C8: `requestNotificationPermission` short-circuits to `granted` without
prompting when permission is already granted, throws `PermissionDeniedError`
without prompting when already denied, and throws `UnsupportedError` when the
capability check fails. -/
theorem request_permission_short_circuit (promptResult current : NotifPermission) :
    requestNotificationPermission true NotifPermission.granted promptResult
      = ⟨Except.ok NotifPermission.granted, 0⟩ ∧
    requestNotificationPermission true NotifPermission.denied promptResult
      = ⟨Except.error PermissionError.permissionDenied, 0⟩ ∧
    requestNotificationPermission false current promptResult
      = ⟨Except.error PermissionError.unsupported, 0⟩ := by
  refine ⟨rfl, by simp [requestNotificationPermission], rfl⟩

/-- C9: `disablePushNotifications` unsubscribes the existing platform
subscription when one exists and returns success, and in every platform state
leaves the server-side subscription store untouched and issues no server
deletion request. -/
theorem disable_local_only (st : PlatformPushState) (store : List PushSubRow) :
    (disablePushNotifications st store).2.serverStore = store ∧
    (disablePushNotifications st store).2.serverDeleteRequests = 0 ∧
    (∀ h, st = PlatformPushState.supported (some h) →
      (disablePushNotifications st store).1.success = true ∧
      (disablePushNotifications st store).2.platformAfter
        = PlatformPushState.supported none) := by
  cases st with
  | unsupported => exact ⟨rfl, rfl, fun h heq => by cases heq⟩
  | supported sub =>
    cases sub with
    | none => exact ⟨rfl, rfl, fun h heq => by cases heq⟩
    | some x => exact ⟨rfl, rfl, fun h heq => ⟨rfl, rfl⟩⟩

/-- C9 witness: disabling with an existing platform subscription succeeds,
clears the platform subscription, and leaves the server store unchanged. -/
theorem disable_local_only_witness :
    (disablePushNotifications (PlatformPushState.supported (some 5))
        [⟨1, "u", "e", "p", "a", 0, 0⟩]).2.serverStore
      = [⟨1, "u", "e", "p", "a", 0, 0⟩] ∧
    (disablePushNotifications (PlatformPushState.supported (some 5))
        [⟨1, "u", "e", "p", "a", 0, 0⟩]).1.success = true ∧
    (disablePushNotifications (PlatformPushState.supported (some 5))
        [⟨1, "u", "e", "p", "a", 0, 0⟩]).2.platformAfter
      = PlatformPushState.supported none :=
  ⟨(disable_local_only (PlatformPushState.supported (some 5))
      [⟨1, "u", "e", "p", "a", 0, 0⟩]).1,
   ((disable_local_only (PlatformPushState.supported (some 5))
      [⟨1, "u", "e", "p", "a", 0, 0⟩]).2.2 5 rfl).1,
   ((disable_local_only (PlatformPushState.supported (some 5))
      [⟨1, "u", "e", "p", "a", 0, 0⟩]).2.2 5 rfl).2⟩

/-- The library sender's fan-out branch: with VAPID configured, a valid
payload and a non-empty matched set, `sendPushNotificationServer` returns the
counted result (no `total` field) and the pruned store. -/
theorem sendPushNotificationServer_eq_fanout (env : SendEnv)
    (store : List PushSubRow) (p : ServerPayload)
    (gw : PushSubRow → GatewayOutcome)
    (hpk : jsTruthy env.VAPID_PUBLIC_KEY = true)
    (hsk : jsTruthy env.VAPID_PRIVATE_KEY = true)
    (ht : jsTruthy p.title = true) (hb : jsTruthy p.body = true)
    (hne : matchedSubscriptions store p.userId ≠ []) :
    sendPushNotificationServer env store p gw
      = (⟨true, sentCount (matchedSubscriptions store p.userId) gw,
          (matchedSubscriptions store p.userId).length
            - sentCount (matchedSubscriptions store p.userId) gw, none⟩,
         applyDeletes store
           (staleIds (matchedSubscriptions store p.userId) gw)) := by
  have hempty : (matchedSubscriptions store p.userId).isEmpty = false := by
    cases hmm : matchedSubscriptions store p.userId
    · exact absurd hmm hne
    · rfl
  simp [sendPushNotificationServer, hpk, hsk, ht, hb, hempty]

/-- With distinct primary keys, applying the per-subscription 410 deletions
leaves exactly the rows that are not a matched record whose gateway call
failed with status 410. -/
theorem applyDeletes_staleIds_matched (store : List PushSubRow)
    (userId : Option String) (gw : PushSubRow → GatewayOutcome)
    (hids : (store.map PushSubRow.id).Nodup) :
    applyDeletes store (staleIds (matchedSubscriptions store userId) gw)
      = store.filter (fun s =>
          ¬ (s ∈ matchedSubscriptions store userId
            ∧ gw s = GatewayOutcome.err 410)) := by
  rw [applyDeletes_eq_filter]
  apply List.filter_congr
  intro s hs
  refine decide_eq_decide.mpr (not_congr ?_)
  rw [staleIds_spec]
  constructor
  · rintro ⟨t, htm, hgw, hid⟩
    have hts : t ∈ store := (matchedSubscriptions_sublist store userId).subset htm
    have heq : t = s := List.inj_on_of_nodup_map hids hts hs hid
    exact ⟨heq ▸ htm, heq ▸ hgw⟩
  · rintro ⟨hm, hgw⟩
    exact ⟨s, hm, hgw, rfl⟩

/-- Deleting by id in any permuted order yields the same store. -/
theorem applyDeletes_perm_congr (store : List PushSubRow)
    {ids order : List Nat} (h : order.Perm ids) :
    applyDeletes store order = applyDeletes store ids := by
  rw [applyDeletes_eq_filter, applyDeletes_eq_filter]
  apply List.filter_congr
  intro s _
  exact decide_eq_decide.mpr (not_congr h.mem_iff)

/-- C1 counterexample: for a library send over N = 2 matched records with one
410 failure, `sendPushNotificationServer` returns
`{success := true, sent := 1, failed := 1, error := none}` — a value of the
source's result type, which has only `success`/`sent`/`failed`/`error` fields
and no `total` field — so the claim's `total = N` fails for the Dispatcher's
library entry point; only the route returns a `total` (here `2`). -/
theorem dispatcher_total_field_counterexample :
    (sendPushNotificationServer ⟨some "s", none, some "pk", some "sk"⟩
        [⟨1, "u", "e1", "p", "a", 0, 0⟩, ⟨2, "u", "e2", "p", "a", 0, 0⟩]
        ⟨none, some "T", some "B", none, none, none, none⟩
        (fun s => if s.id = 2 then GatewayOutcome.err 410
          else GatewayOutcome.ok)).1
      = ({ success := true, sent := 1, failed := 1, error := none } :
          ServerSendResult) ∧
    (sendPushNotificationServer ⟨some "s", none, some "pk", some "sk"⟩
        [⟨1, "u", "e1", "p", "a", 0, 0⟩, ⟨2, "u", "e2", "p", "a", 0, 0⟩]
        ⟨none, some "T", some "B", none, none, none, none⟩
        (fun s => if s.id = 2 then GatewayOutcome.err 410
          else GatewayOutcome.ok)).2
      = [⟨1, "u", "e1", "p", "a", 0, 0⟩] ∧
    (pushSendPOST ⟨some "s", none, some "pk", some "sk"⟩
        [⟨1, "u", "e1", "p", "a", 0, 0⟩, ⟨2, "u", "e2", "p", "a", 0, 0⟩]
        ⟨some "s", none, some "T", some "B", none, none, none, none⟩
        (fun s => if s.id = 2 then GatewayOutcome.err 410
          else GatewayOutcome.ok)).1
      = SendResponse.sendResult true 1 1 2 := by
  refine ⟨by decide, by decide, by decide⟩

/-- C1 (amended): over a matched set of N subscription records of which
exactly K gateway calls fail, the route returns
`{success: true, sent: N-K, failed: K, total: N}` (so `sent + failed = total`),
while the library's `sendPushNotificationServer` returns
`{success: true, sent: N-K, failed: K}` — its result type has no `total`
field, though `sent + failed = N` still holds; in both, exactly the records
whose gateway call failed with the permanent 410 status are deleted from the
store, and the final store is the same for every completion order of the
concurrent per-subscription sends. -/
theorem dispatcher_send_counts_and_pruning (env : SendEnv)
    (store : List PushSubRow) (req : SendRequest) (p : ServerPayload)
    (gw : PushSubRow → GatewayOutcome)
    (hids : (store.map PushSubRow.id).Nodup)
    (hsec : req.internalSecretHeader = some (internalSecret env))
    (hpk : jsTruthy env.VAPID_PUBLIC_KEY = true)
    (hsk : jsTruthy env.VAPID_PRIVATE_KEY = true)
    (ht : jsTruthy req.title = true) (hb : jsTruthy req.body = true)
    (hne : matchedSubscriptions store req.userId ≠ [])
    (ht2 : jsTruthy p.title = true) (hb2 : jsTruthy p.body = true)
    (hne2 : matchedSubscriptions store p.userId ≠ []) :
    ((pushSendPOST env store req gw).1
      = SendResponse.sendResult true
          ((matchedSubscriptions store req.userId).length
            - failCount (matchedSubscriptions store req.userId) gw)
          (failCount (matchedSubscriptions store req.userId) gw)
          (matchedSubscriptions store req.userId).length ∧
     ((matchedSubscriptions store req.userId).length
        - failCount (matchedSubscriptions store req.userId) gw)
        + failCount (matchedSubscriptions store req.userId) gw
       = (matchedSubscriptions store req.userId).length ∧
     (pushSendPOST env store req gw).2.finalStore
       = store.filter (fun s =>
           ¬ (s ∈ matchedSubscriptions store req.userId
             ∧ gw s = GatewayOutcome.err 410)) ∧
     ∀ order : List Nat,
       order.Perm (staleIds (matchedSubscriptions store req.userId) gw) →
       applyDeletes store order
         = (pushSendPOST env store req gw).2.finalStore) ∧
    ((sendPushNotificationServer env store p gw).1
      = ⟨true,
          (matchedSubscriptions store p.userId).length
            - failCount (matchedSubscriptions store p.userId) gw,
          failCount (matchedSubscriptions store p.userId) gw, none⟩ ∧
     ((matchedSubscriptions store p.userId).length
        - failCount (matchedSubscriptions store p.userId) gw)
        + failCount (matchedSubscriptions store p.userId) gw
       = (matchedSubscriptions store p.userId).length ∧
     (sendPushNotificationServer env store p gw).2
       = store.filter (fun s =>
           ¬ (s ∈ matchedSubscriptions store p.userId
             ∧ gw s = GatewayOutcome.err 410)) ∧
     ∀ order : List Nat,
       order.Perm (staleIds (matchedSubscriptions store p.userId) gw) →
       applyDeletes store order
         = (sendPushNotificationServer env store p gw).2) := by
  constructor
  · have hcnt := sentCount_add_failCount (matchedSubscriptions store req.userId) gw
    have hfan := pushSendPOST_eq_fanout env store req gw hsec hpk hsk ht hb hne
    have hfinal : (pushSendPOST env store req gw).2.finalStore
        = store.filter (fun s =>
            ¬ (s ∈ matchedSubscriptions store req.userId
              ∧ gw s = GatewayOutcome.err 410)) := by
      rw [hfan]
      exact applyDeletes_staleIds_matched store req.userId gw hids
    refine ⟨?_, by omega, hfinal, ?_⟩
    · have ha : sentCount (matchedSubscriptions store req.userId) gw
          = (matchedSubscriptions store req.userId).length
            - failCount (matchedSubscriptions store req.userId) gw := by omega
      have hb3 : (matchedSubscriptions store req.userId).length
            - sentCount (matchedSubscriptions store req.userId) gw
          = failCount (matchedSubscriptions store req.userId) gw := by omega
      rw [hfan]
      show SendResponse.sendResult true _ _ _ = SendResponse.sendResult true _ _ _
      rw [hb3, ha]
    · intro order hperm
      rw [applyDeletes_perm_congr store hperm, hfan]
  · have hcnt := sentCount_add_failCount (matchedSubscriptions store p.userId) gw
    have hfan := sendPushNotificationServer_eq_fanout env store p gw hpk hsk
      ht2 hb2 hne2
    have hfinal : (sendPushNotificationServer env store p gw).2
        = store.filter (fun s =>
            ¬ (s ∈ matchedSubscriptions store p.userId
              ∧ gw s = GatewayOutcome.err 410)) := by
      rw [hfan]
      exact applyDeletes_staleIds_matched store p.userId gw hids
    refine ⟨?_, by omega, hfinal, ?_⟩
    · have ha : sentCount (matchedSubscriptions store p.userId) gw
          = (matchedSubscriptions store p.userId).length
            - failCount (matchedSubscriptions store p.userId) gw := by omega
      have hb3 : (matchedSubscriptions store p.userId).length
            - sentCount (matchedSubscriptions store p.userId) gw
          = failCount (matchedSubscriptions store p.userId) gw := by omega
      rw [hfan]
      show ServerSendResult.mk true _ _ none = ServerSendResult.mk true _ _ none
      rw [hb3, ha]
    · intro order hperm
      rw [applyDeletes_perm_congr store hperm, hfan]

/-- C1 witness: three matched subscriptions, one success, one 410 failure and
one 500 failure: the route returns `sent = 1, failed = 2, total = 3`, the
library returns `{success, sent = 1, failed = 2}` with no total; only the 410
record is pruned, whatever the completion order. -/
theorem dispatcher_send_counts_and_pruning_witness :
    (pushSendPOST ⟨some "s", none, some "pk", some "sk"⟩
        [⟨1, "u", "e1", "p", "a", 0, 0⟩, ⟨2, "u", "e2", "p", "a", 0, 0⟩,
         ⟨3, "u", "e3", "p", "a", 0, 0⟩]
        ⟨some "s", none, some "T", some "B", none, none, none, none⟩
        (fun s => if s.id = 1 then GatewayOutcome.ok
          else if s.id = 2 then GatewayOutcome.err 410
          else GatewayOutcome.err 500)).1
      = SendResponse.sendResult true 1 2 3 ∧
    (pushSendPOST ⟨some "s", none, some "pk", some "sk"⟩
        [⟨1, "u", "e1", "p", "a", 0, 0⟩, ⟨2, "u", "e2", "p", "a", 0, 0⟩,
         ⟨3, "u", "e3", "p", "a", 0, 0⟩]
        ⟨some "s", none, some "T", some "B", none, none, none, none⟩
        (fun s => if s.id = 1 then GatewayOutcome.ok
          else if s.id = 2 then GatewayOutcome.err 410
          else GatewayOutcome.err 500)).2.finalStore
      = [⟨1, "u", "e1", "p", "a", 0, 0⟩, ⟨3, "u", "e3", "p", "a", 0, 0⟩] ∧
    applyDeletes
        [⟨1, "u", "e1", "p", "a", 0, 0⟩, ⟨2, "u", "e2", "p", "a", 0, 0⟩,
         ⟨3, "u", "e3", "p", "a", 0, 0⟩] [2]
      = (pushSendPOST ⟨some "s", none, some "pk", some "sk"⟩
          [⟨1, "u", "e1", "p", "a", 0, 0⟩, ⟨2, "u", "e2", "p", "a", 0, 0⟩,
           ⟨3, "u", "e3", "p", "a", 0, 0⟩]
          ⟨some "s", none, some "T", some "B", none, none, none, none⟩
          (fun s => if s.id = 1 then GatewayOutcome.ok
            else if s.id = 2 then GatewayOutcome.err 410
            else GatewayOutcome.err 500)).2.finalStore ∧
    (sendPushNotificationServer ⟨some "s", none, some "pk", some "sk"⟩
        [⟨1, "u", "e1", "p", "a", 0, 0⟩, ⟨2, "u", "e2", "p", "a", 0, 0⟩,
         ⟨3, "u", "e3", "p", "a", 0, 0⟩]
        ⟨none, some "T", some "B", none, none, none, none⟩
        (fun s => if s.id = 1 then GatewayOutcome.ok
          else if s.id = 2 then GatewayOutcome.err 410
          else GatewayOutcome.err 500)).1
      = ({ success := true, sent := 1, failed := 2, error := none } :
          ServerSendResult) ∧
    (sendPushNotificationServer ⟨some "s", none, some "pk", some "sk"⟩
        [⟨1, "u", "e1", "p", "a", 0, 0⟩, ⟨2, "u", "e2", "p", "a", 0, 0⟩,
         ⟨3, "u", "e3", "p", "a", 0, 0⟩]
        ⟨none, some "T", some "B", none, none, none, none⟩
        (fun s => if s.id = 1 then GatewayOutcome.ok
          else if s.id = 2 then GatewayOutcome.err 410
          else GatewayOutcome.err 500)).2
      = [⟨1, "u", "e1", "p", "a", 0, 0⟩, ⟨3, "u", "e3", "p", "a", 0, 0⟩] := by
  have T := dispatcher_send_counts_and_pruning
    ⟨some "s", none, some "pk", some "sk"⟩
    [⟨1, "u", "e1", "p", "a", 0, 0⟩, ⟨2, "u", "e2", "p", "a", 0, 0⟩,
     ⟨3, "u", "e3", "p", "a", 0, 0⟩]
    ⟨some "s", none, some "T", some "B", none, none, none, none⟩
    ⟨none, some "T", some "B", none, none, none, none⟩
    (fun s => if s.id = 1 then GatewayOutcome.ok
      else if s.id = 2 then GatewayOutcome.err 410
      else GatewayOutcome.err 500)
    (by decide) (by decide) (by decide) (by decide) (by decide) (by decide)
    (by decide) (by decide) (by decide) (by decide)
  exact ⟨T.1.1.trans (by decide), T.1.2.2.1.trans (by decide),
    T.1.2.2.2 [2] (by decide), T.2.1.trans (by decide),
    T.2.2.2.1.trans (by decide)⟩

theorem filter_append_singleton (p : PushSubRow → Bool) (l : List PushSubRow)
    (x : PushSubRow) (h : l.filter p = []) (hx : p x = true) :
    (l ++ [x]).filter p = [x] := by
  rw [List.filter_append, h, List.nil_append]
  simp [List.filter_cons, hx]

theorem map_update_ids (l : List PushSubRow) (r0 v : PushSubRow)
    (hvid : v.id = r0.id) :
    (l.map (fun r => if r.id = r0.id then v else r)).map PushSubRow.id
      = l.map PushSubRow.id := by
  rw [List.map_map]
  apply List.map_congr_left
  intro r _
  by_cases h : r.id = r0.id
  · simp [Function.comp, h, hvid]
  · simp [Function.comp, h]

theorem filter_map_update (p : PushSubRow → Bool) (l : List PushSubRow)
    (r0 v : PushSubRow) (hids : (l.map PushSubRow.id).Nodup)
    (hf : l.filter p = [r0]) (hv : p v = true) (hvid : v.id = r0.id) :
    (l.map (fun r => if r.id = r0.id then v else r)).filter p = [v] := by
  induction l with
  | nil => simp at hf
  | cons a t ih =>
    rw [List.map_cons] at hids
    have hids' : (t.map PushSubRow.id).Nodup := hids.of_cons
    have hanotin : a.id ∉ t.map PushSubRow.id := (List.nodup_cons.mp hids).1
    by_cases hpa : p a
    · rw [List.filter_cons_of_pos hpa] at hf
      injection hf with ha hft
      subst ha
      rw [List.map_cons, if_pos rfl]
      have hmapid : t.map (fun r => if r.id = a.id then v else r) = t := by
        have hcong : ∀ r ∈ t,
            (fun r => if r.id = a.id then v else r) r = id r := by
          intro r hr
          have hne : r.id ≠ a.id := fun hc =>
            hanotin (hc ▸ List.mem_map_of_mem PushSubRow.id hr)
          simp [hne]
        rw [List.map_congr_left hcong, List.map_id]
      rw [hmapid, List.filter_cons_of_pos hv, hft]
    · rw [List.filter_cons_of_neg hpa] at hf
      have hr0t : r0 ∈ t :=
        List.mem_of_mem_filter (hf ▸ List.mem_singleton_self r0)
      have haid : a.id ≠ r0.id := fun hc =>
        hanotin (hc ▸ List.mem_map_of_mem PushSubRow.id hr0t)
      rw [List.map_cons, if_neg haid, List.filter_cons_of_neg hpa,
        ih hids' hf]

theorem subscribePOST_authed (uid tok e p a : String) (store : List PushSubRow)
    (n t : Nat) (htok : tok ≠ "") (he : e ≠ "") (hp : p ≠ "") (ha : a ≠ "") :
    subscribePOST (some uid) store n t
        ⟨some ("Bearer " ++ tok), some e, some p, some a⟩
      = match singleRow (store.filter (subsMatch uid e)) with
        | some existing =>
          (SubscribeResponse.ok
            ⟨existing.id, uid, e, p, a, existing.created_at, t⟩,
           store.map (fun r => if r.id = existing.id then
             ⟨existing.id, uid, e, p, a, existing.created_at, t⟩ else r))
        | none =>
          (SubscribeResponse.ok ⟨n, uid, e, p, a, t, t⟩,
           store ++ [⟨n, uid, e, p, a, t, t⟩]) := by
  simp [subscribePOST, stripBearer_bearer, jsTruthy, htok, he, hp, ha]

/-- C2: two successive authenticated calls to `POST /api/push/subscribe` with
the same endpoint and different key material leave exactly one
`push_subscriptions` record for that `(userId, endpoint)` pair, carrying the
second call's key material — never two records.  The hypotheses are the
table's invariants: distinct primary keys, a fresh insert id, and the
`UNIQUE(user_id, endpoint)` constraint. -/
theorem subscribe_upsert_single_record (store : List PushSubRow)
    (uid tok e p1 a1 p2 a2 : String) (n1 n2 t1 t2 : Nat)
    (hids : (store.map PushSubRow.id).Nodup)
    (hfresh : n1 ∉ store.map PushSubRow.id)
    (huniq : (store.filter (subsMatch uid e)).length ≤ 1)
    (htok : tok ≠ "") (he : e ≠ "") (hp1 : p1 ≠ "") (ha1 : a1 ≠ "")
    (hp2 : p2 ≠ "") (ha2 : a2 ≠ "") :
    ∃ i c,
      ((subscribePOST (some uid)
          (subscribePOST (some uid) store n1 t1
            ⟨some ("Bearer " ++ tok), some e, some p1, some a1⟩).2
          n2 t2 ⟨some ("Bearer " ++ tok), some e, some p2, some a2⟩).2).filter
          (subsMatch uid e)
        = [⟨i, uid, e, p2, a2, c, t2⟩] := by
  rw [subscribePOST_authed uid tok e p1 a1 store n1 t1 htok he hp1 ha1]
  cases hl : store.filter (subsMatch uid e) with
  | nil =>
    simp only [singleRow]
    rw [subscribePOST_authed uid tok e p2 a2 _ n2 t2 htok he hp2 ha2]
    have hf1 : (store ++ [(⟨n1, uid, e, p1, a1, t1, t1⟩ : PushSubRow)]).filter
          (subsMatch uid e)
        = [(⟨n1, uid, e, p1, a1, t1, t1⟩ : PushSubRow)] :=
      filter_append_singleton (subsMatch uid e) store ⟨n1, uid, e, p1, a1, t1, t1⟩
        hl (by simp [subsMatch])
    rw [hf1]
    simp only [singleRow]
    have hids1 : ((store ++ [(⟨n1, uid, e, p1, a1, t1, t1⟩ : PushSubRow)]).map
        PushSubRow.id).Nodup := by
      rw [List.map_append]
      simp [List.nodup_append, hids, hfresh]
    refine ⟨n1, t1, ?_⟩
    exact filter_map_update (subsMatch uid e)
      (store ++ [(⟨n1, uid, e, p1, a1, t1, t1⟩ : PushSubRow)])
      ⟨n1, uid, e, p1, a1, t1, t1⟩ ⟨n1, uid, e, p2, a2, t1, t2⟩ hids1 hf1
      (by simp [subsMatch]) rfl
  | cons r0 rest =>
    cases rest with
    | cons r1 rest2 =>
      rw [hl] at huniq
      simp only [List.length_cons] at huniq
      omega
    | nil =>
      simp only [singleRow]
      rw [subscribePOST_authed uid tok e p2 a2 _ n2 t2 htok he hp2 ha2]
      have hf1 : (store.map (fun r => if r.id = r0.id then
            ⟨r0.id, uid, e, p1, a1, r0.created_at, t1⟩ else r)).filter
          (subsMatch uid e) = [⟨r0.id, uid, e, p1, a1, r0.created_at, t1⟩] :=
        filter_map_update (subsMatch uid e) store r0 _ hids hl
          (by simp [subsMatch]) rfl
      rw [hf1]
      simp only [singleRow]
      have hids1 : ((store.map (fun r => if r.id = r0.id then
            ⟨r0.id, uid, e, p1, a1, r0.created_at, t1⟩ else r)).map
          PushSubRow.id).Nodup := by
        rw [map_update_ids store r0 ⟨r0.id, uid, e, p1, a1, r0.created_at, t1⟩ rfl]
        exact hids
      refine ⟨r0.id, r0.created_at, ?_⟩
      exact filter_map_update (subsMatch uid e)
        (store.map (fun r => if r.id = r0.id then
          ⟨r0.id, uid, e, p1, a1, r0.created_at, t1⟩ else r))
        ⟨r0.id, uid, e, p1, a1, r0.created_at, t1⟩
        ⟨r0.id, uid, e, p2, a2, r0.created_at, t2⟩ hids1 hf1
        (by simp [subsMatch]) rfl

/-- C2 witness: starting from a store holding one record for the pair, two
concrete calls with different keys leave exactly one record with the second
call's keys. -/
theorem subscribe_upsert_single_record_witness :
    ∃ i c,
      ((subscribePOST (some "u")
          (subscribePOST (some "u") [⟨7, "u", "ep", "oldp", "olda", 0, 0⟩]
            8 1 ⟨some ("Bearer " ++ "tk"), some "ep", some "pA", some "aA"⟩).2
          9 2 ⟨some ("Bearer " ++ "tk"), some "ep", some "pB", some "aB"⟩).2).filter
          (subsMatch "u" "ep")
        = [⟨i, "u", "ep", "pB", "aB", c, 2⟩] :=
  subscribe_upsert_single_record [⟨7, "u", "ep", "oldp", "olda", 0, 0⟩]
    "u" "tk" "ep" "pA" "aA" "pB" "aB" 8 9 1 2
    (by decide) (by decide) (by decide) (by decide) (by decide) (by decide)
    (by decide) (by decide) (by decide)

theorem stringLength_mk (l : List Char) : (String.mk l).length = l.length := rfl

theorem stringToList_mk (l : List Char) : (String.mk l).toList = l := rfl

theorem b64Val_b64Char : ∀ n, n < 64 → b64Val (b64Char n) = some n := by decide

theorem b64Char_mem_of_lt : ∀ n, n < 64 → b64Char n ∈ base64Alphabet := by decide

theorem base64Alphabet_no_pad : ∀ c ∈ base64Alphabet, c ≠ '=' := by decide

theorem stdChar_urlChar_b64Char :
    ∀ n, n < 64 → stdChar (urlChar (b64Char n)) = b64Char n := by decide

theorem sextetsToBytes_bytesToSextets (b : List Nat) (h : ∀ y ∈ b, y < 256) :
    sextetsToBytes (bytesToSextets b) = b := by
  induction b using bytesToSextets.induct with
  | case1 x y z rest ih =>
    have hx : x < 256 := h x (by simp)
    have hy : y < 256 := h y (by simp)
    have hz : z < 256 := h z (by simp)
    rw [bytesToSextets, sextetsToBytes, ih (fun w hw => h w (by simp [hw]))]
    simp only [List.cons.injEq]
    refine ⟨by omega, by omega, by omega, trivial⟩
  | case2 x y =>
    have hx : x < 256 := h x (by simp)
    have hy : y < 256 := h y (by simp)
    have e1 : bytesToSextets [x, y] = [x / 4, (x % 4) * 16 + y / 16, (y % 16) * 4] := rfl
    have e2 : sextetsToBytes [x / 4, (x % 4) * 16 + y / 16, (y % 16) * 4]
        = [(x / 4) * 4 + ((x % 4) * 16 + y / 16) / 16,
           (((x % 4) * 16 + y / 16) % 16) * 16 + ((y % 16) * 4) / 4] := rfl
    rw [e1, e2]
    simp only [List.cons.injEq]
    refine ⟨by omega, by omega, trivial⟩
  | case3 x =>
    have hx : x < 256 := h x (by simp)
    have e1 : bytesToSextets [x] = [x / 4, (x % 4) * 16] := rfl
    have e2 : sextetsToBytes [x / 4, (x % 4) * 16]
        = [(x / 4) * 4 + ((x % 4) * 16) / 16] := rfl
    rw [e1, e2]
    simp only [List.cons.injEq]
    refine ⟨by omega, trivial⟩
  | case4 => rfl

theorem bytesToSextets_lt (b : List Nat) (h : ∀ y ∈ b, y < 256) :
    ∀ n ∈ bytesToSextets b, n < 64 := by
  induction b using bytesToSextets.induct with
  | case1 x y z rest ih =>
    have hx : x < 256 := h x (by simp)
    have hy : y < 256 := h y (by simp)
    have hz : z < 256 := h z (by simp)
    intro n hn
    rw [bytesToSextets] at hn
    simp only [List.mem_cons] at hn
    rcases hn with rfl | rfl | rfl | rfl | hn
    · omega
    · omega
    · omega
    · omega
    · exact ih (fun w hw => h w (by simp [hw])) n hn
  | case2 x y =>
    have hx : x < 256 := h x (by simp)
    have hy : y < 256 := h y (by simp)
    intro n hn
    simp only [bytesToSextets, List.mem_cons, List.not_mem_nil, or_false] at hn
    rcases hn with rfl | rfl | rfl <;> omega
  | case3 x =>
    have hx : x < 256 := h x (by simp)
    intro n hn
    simp only [bytesToSextets, List.mem_cons, List.not_mem_nil, or_false] at hn
    rcases hn with rfl | rfl <;> omega
  | case4 =>
    intro n hn
    simp [bytesToSextets] at hn

theorem bytesToSextets_length (b : List Nat) :
    (bytesToSextets b).length = b.length + (b.length + 2) / 3 := by
  induction b using bytesToSextets.induct <;> simp [bytesToSextets, *] <;> omega

theorem dropTrailingEq1_append_eq (l : List Char) :
    dropTrailingEq1 (l ++ ['=']) = l := by
  unfold dropTrailingEq1
  simp [List.reverse_append]

theorem dropTrailingEq1_of_ne (l : List Char) (h : ∀ c ∈ l, c ≠ '=') :
    dropTrailingEq1 l = l := by
  unfold dropTrailingEq1
  rcases hrev : l.reverse with _ | ⟨c, rest⟩
  · rfl
  · have hc : c ∈ l := by
      have h2 : c ∈ l.reverse := by rw [hrev]; exact List.mem_cons_self c rest
      exact List.mem_reverse.mp h2
    show (if c = '=' then rest.reverse else l) = l
    rw [if_neg (h c hc)]

theorem stripPad_chars_pad (chars : List Char) (hne : ∀ c ∈ chars, c ≠ '=')
    (k : Nat) (hk : k ≤ 2) :
    stripPad (chars ++ List.replicate k '=') = chars := by
  unfold stripPad
  interval_cases k
  · rw [show List.replicate 0 '=' = ([] : List Char) from rfl, List.append_nil,
      dropTrailingEq1_of_ne chars hne, dropTrailingEq1_of_ne chars hne]
  · rw [show List.replicate 1 '=' = ['='] from rfl, dropTrailingEq1_append_eq,
      dropTrailingEq1_of_ne chars hne]
  · rw [show List.replicate 2 '=' = ['=', '='] from rfl,
      show chars ++ ['=', '='] = (chars ++ ['=']) ++ ['='] by simp,
      dropTrailingEq1_append_eq, dropTrailingEq1_append_eq]

theorem atob_canonical (S : List Nat) (hS : ∀ n ∈ S, n < 64) (k : Nat)
    (hk : k ≤ 2) (hlen : (S.length + k) % 4 = 0) (hne1 : S.length % 4 ≠ 1) :
    atob (String.mk (S.map b64Char ++ List.replicate k '='))
      = some (sextetsToBytes S) := by
  have hcne : ∀ c ∈ S.map b64Char, c ≠ '=' := by
    intro c hc
    rw [List.mem_map] at hc
    obtain ⟨n, hn, rfl⟩ := hc
    exact base64Alphabet_no_pad (b64Char n) (b64Char_mem_of_lt n (hS n hn))
  simp only [atob, stringLength_mk, stringToList_mk]
  have h0 : (S.map b64Char ++ List.replicate k '=').length % 4 = 0 := by
    rw [List.length_append, List.length_map, List.length_replicate]
    exact hlen
  rw [if_pos h0, stripPad_chars_pad (S.map b64Char) hcne k hk]
  have h1 : ¬ ((S.map b64Char).length % 4 = 1) := by
    rw [List.length_map]
    exact hne1
  rw [if_neg h1]
  have h2 : (S.map b64Char).all (fun c => (b64Val c).isSome) = true := by
    rw [List.all_eq_true]
    intro c hc
    rw [List.mem_map] at hc
    obtain ⟨n, hn, rfl⟩ := hc
    rw [b64Val_b64Char n (hS n hn)]
    rfl
  rw [if_pos h2]
  congr 1
  rw [List.map_map]
  have hptw : ∀ n ∈ S, ((fun c => (b64Val c).getD 0) ∘ b64Char) n = id n := by
    intro n hn
    simp only [Function.comp_apply, b64Val_b64Char n (hS n hn), Option.getD_some,
      id_eq]
  rw [List.map_congr_left hptw, List.map_id]

theorem urlBase64ToUint8Array_encode (b : List Nat) (h : ∀ y ∈ b, y < 256) :
    urlBase64ToUint8Array (base64urlEncode b) = some b := by
  have hS := bytesToSextets_lt b h
  have hlen := bytesToSextets_length b
  simp only [urlBase64ToUint8Array, base64urlEncode, stringLength_mk,
    stringToList_mk, List.length_map]
  have hmap : ((bytesToSextets b).map (fun n => urlChar (b64Char n))
        ++ List.replicate ((4 - (bytesToSextets b).length % 4) % 4) '=').map
        stdChar
      = (bytesToSextets b).map b64Char
        ++ List.replicate ((4 - (bytesToSextets b).length % 4) % 4) '=' := by
    rw [List.map_append, List.map_map, List.map_replicate]
    congr 1
    apply List.map_congr_left
    intro n hn
    simp only [Function.comp_apply]
    exact stdChar_urlChar_b64Char n (hS n hn)
  rw [hmap, atob_canonical (bytesToSextets b) hS
      ((4 - (bytesToSextets b).length % 4) % 4) (by omega) (by omega) (by omega),
    sextetsToBytes_bytesToSextets b h]

/-- C5 counterexample: `"-w"` is a valid base64url key string (it encodes the
byte 251), but decoding it and re-encoding with `btoa` yields `"+w=="` — the
standard-alphabet form — which differs from the original string by more than
padding, so padding normalization alone does not reproduce the original. -/
theorem codec_alphabet_counterexample :
    base64urlEncode [251] = "-w" ∧
    urlBase64ToUint8Array "-w" = some [251] ∧
    btoaBytes [251] = "+w==" ∧
    ("+w==" : String) ≠ "-w" ++ "==" := by
  refine ⟨by decide, by decide, by decide, by decide⟩

/-- C5 (amended): for every valid base64url-encoded key string — the unpadded
base64url encoding of a byte sequence — decoding with `urlBase64ToUint8Array`
recovers exactly those bytes, and re-encoding them with `btoa` reproduces the
original string modulo padding normalization AND alphabet normalization
(`'-'`→`'+'`, `'_'`→`'/'`). -/
theorem codec_round_trip (b : List Nat) (h : ∀ y ∈ b, y < 256) :
    ∃ decoded,
      urlBase64ToUint8Array (base64urlEncode b) = some decoded ∧
      btoaBytes decoded
        = String.mk ((base64urlEncode b).toList.map stdChar
            ++ padChars b.length) ∧
      decoded = b := by
  refine ⟨b, urlBase64ToUint8Array_encode b h, ?_, rfl⟩
  unfold btoaBytes
  congr 1
  congr 1
  rw [base64urlEncode, stringToList_mk, List.map_map]
  refine (List.map_congr_left ?_).symm
  intro n hn
  simp only [Function.comp_apply]
  exact stdChar_urlChar_b64Char n (bytesToSextets_lt b h n hn)

/-- C5 witness: the concrete key bytes `[4, 32, 255]` encode to `"BCD_"`,
decode back to the same bytes, and re-encode to the alphabet-normalised
`"BCD/"` (with no padding needed for 3 bytes). -/
theorem codec_round_trip_witness :
    (∀ y ∈ ([4, 32, 255] : List Nat), y < 256) ∧
    ∃ decoded,
      urlBase64ToUint8Array (base64urlEncode [4, 32, 255]) = some decoded ∧
      btoaBytes decoded
        = String.mk ((base64urlEncode [4, 32, 255]).toList.map stdChar
            ++ padChars ([4, 32, 255] : List Nat).length) ∧
      decoded = [4, 32, 255] :=
  ⟨by decide, codec_round_trip [4, 32, 255] (by decide)⟩
